import Mathlib

set_option maxRecDepth 16384

/-!
Shallow embedding of `src/ads1100.py`, a MicroPython driver for the ADS1100
I2C analog-to-digital converter.

Modelling conventions:
* Python arbitrary-precision integers are `Int`; where the source only ever
  handles non-negative quantities (bus bytes, the raw sample) we use `Nat`,
  on which Python's `<<`, `|`, `&` agree with `Nat.shiftLeft`, `Nat.lor`,
  `Nat.land`.
* The shadow config register can leave the byte range (the unvalidated mode
  setter), so it is an `Int` and the bitwise operators on it are modelled by
  `pyAnd` / `pyOr` / `pyNot` / `pyShl` below, which implement Python's
  two's-complement semantics on arbitrary integers.
* Python floats are modelled as exact rationals.  A Python number is a
  `PyNum`, which remembers whether the runtime object is an `int` or a
  `float` (the source's `voltage` property can produce either).
* I2C traffic is observable: every driver operation returns, besides the
  updated driver state, the list of bus operations it performed and an
  `Except` carrying the Python exception, if one was raised.  The device's
  3-byte answer to `readfrom_into` is a parameter of the read operations.
* `int.to_bytes(1, 'big')` raises `OverflowError` outside `[0, 255]`; this
  is modelled by `toBytes1` returning `none` there.
-/

/-- Python bitwise complement: `~a = -a - 1` (two's complement). -/
def pyNot (a : Int) : Int := -(a + 1)

/-- Python bitwise AND on arbitrary integers (two's complement).  For
non-negative operands it is `Nat.land`; the mixed cases use
`a &&& ~n = a - (a &&& n)` (the bits of `a &&& n` are a subset of the bits
of `a`), and for two negative operands De Morgan:
`~m &&& ~n = ~(m ||| n)`. -/
def pyAnd (a b : Int) : Int :=
  if 0 ≤ a then
    if 0 ≤ b then ((a.toNat &&& b.toNat : Nat) : Int)
    else ((a.toNat - (a.toNat &&& (-b - 1).toNat) : Nat) : Int)
  else
    if 0 ≤ b then ((b.toNat - (b.toNat &&& (-a - 1).toNat) : Nat) : Int)
    else -((((-a - 1).toNat ||| (-b - 1).toNat : Nat) : Int) + 1)

/-- Python bitwise OR on arbitrary integers (two's complement).  For
non-negative operands it is `Nat.lor`; for a mixed sign pair De Morgan gives
`a ||| ~n = ~(n - (n &&& a))`, and `~m ||| ~n = ~(m &&& n)`. -/
def pyOr (a b : Int) : Int :=
  if 0 ≤ a then
    if 0 ≤ b then ((a.toNat ||| b.toNat : Nat) : Int)
    else -((((-b - 1).toNat - ((-b - 1).toNat &&& a.toNat) : Nat) : Int) + 1)
  else
    if 0 ≤ b then -((((-a - 1).toNat - ((-a - 1).toNat &&& b.toNat) : Nat) : Int) + 1)
    else -((((-a - 1).toNat &&& (-b - 1).toNat : Nat) : Int) + 1)

/-- Python left shift on arbitrary integers: `a << k = a * 2 ^ k`. -/
def pyShl (a : Int) (k : Nat) : Int := a * ((2 ^ k : Nat) : Int)

-- Sanity checks of the two's-complement model on concrete values.
example : pyAnd (-5) (-3) = -7 := by decide
example : pyOr (-5) 3 = -5 := by decide
example : pyAnd (-17) 255 = 239 := by decide
example : pyOr 12 (-17) = -17 := by decide
example : pyAnd 140 (pyNot 16) = 140 := by decide
example : pyShl (-3) 4 = -48 := by decide

deriving instance DecidableEq for Except

/-- Models `int.to_bytes(1, 'big')`: the single byte, or `none` for the
`OverflowError` raised outside `[0, 255]`. -/
def toBytes1 (n : Int) : Option Nat :=
  if 0 ≤ n ∧ n < 256 then some n.toNat else none

/-- `_ADS1100_DEFAULT_ADDRESS` (src line 10). -/
def ADS1100_DEFAULT_ADDRESS : Nat := 0x48

/-- `_ST_BSY_BIT` (src line 12). -/
def ST_BSY_BIT : Int := 0b10000000

/-- `_SC_BIT` (src line 13). -/
def SC_BIT : Int := 0b00010000

/-- `_DR_BIT` (src line 14). -/
def DR_BIT : Int := 0b00001100

/-- `_PGA_BIT` (src line 15). -/
def PGA_BIT : Int := 0b00000011

/-- `_DATA_RATE` (src line 17). -/
def DATA_RATE : List Nat := [128, 32, 16, 8]

/-- `_GAINS` (src line 19). -/
def GAINS : List Nat := [1, 2, 4, 8]

/-- `_MIN_CODE` (src line 21), as Python's `dict.get`: `none` for a key
outside the table. -/
def MIN_CODE (rate : Nat) : Option Int :=
  if rate = 128 then some (-2048)
  else if rate = 32 then some (-8192)
  else if rate = 16 then some (-16384)
  else if rate = 8 then some (-32768)
  else none

/-- `ADS1100.CONTINUOUS` (src line 26). -/
def CONTINUOUS : Int := 0

/-- `ADS1100.SINGLE` (src line 27). -/
def SINGLE : Int := 1

/-- One observable bus interaction (or blocking delay) of the driver. -/
inductive BusOp where
  | write (addr : Nat) (data : List Nat)
  | sleep_ms (ms : Nat)
  | readfrom_into (addr : Nat) (len : Nat)
deriving DecidableEq

/-- A Python number as returned by the driver: the runtime distinguishes
`int` from `float`; floats are modelled as exact rationals. -/
inductive PyNum where
  | pint (n : Int)
  | pfloat (q : ℚ)
deriving DecidableEq

/-- Numeric value of a `PyNum`. -/
def PyNum.toRat : PyNum → ℚ
  | .pint n => (n : ℚ)
  | .pfloat q => q

/-- Driver state: the fields set by `ADS1100.__init__` (src lines 33-47)
plus the 3-byte scratch buffer `_BUFFER` (src line 31).  `pressure_scale`
models the source's pressure-ratio construction parameter (an `int`). -/
structure ADS1100 where
  addr : Nat
  reference_voltage : ℚ
  pressure_scale : Int
  config : Int
  mode : Int
  rate : Nat
  gain : Nat
  buffer : Nat × Nat × Nat
deriving DecidableEq

/-- `ADS1100.__init__` (src lines 33-47): shadow config `0x8C`, mode
`CONTINUOUS`, rate 8, gain 1; no hardware communication. -/
def ADS1100.init (addr : Nat) (reference_voltage : ℚ) (pressure_scale : Int) :
    ADS1100 :=
  { addr := addr
    reference_voltage := reference_voltage
    pressure_scale := pressure_scale
    config := 0x8C
    mode := CONTINUOUS
    rate := 8
    gain := 1
    buffer := (0, 0, 0) }

/-- Message of the `OverflowError` raised by `int.to_bytes(1, 'big')`. -/
def overflowErr : String := "OverflowError"

/-- Message of the `ValueError` raised by the rate setter (src lines
101-106): `str` of the `_DATA_RATE` tuple interpolated into the format
string. -/
def rateErr : String := "Rate should be one of the following values: (128, 32, 16, 8)"

/-- Message of the `ValueError` raised by the gain setter (src lines
121-124). -/
def gainErr : String := "Gain should be one of the following values: (1, 2, 4, 8)"

/-- `ADS1100.value` (src lines 49-64).  `resp` is the 3-byte device answer
`[MSB, LSB, status]` that `readfrom_into` deposits in `_BUFFER`.  Steps:
write the current shadow config byte, sleep 100 ms, read 3 bytes into the
buffer, replace the shadow config by the returned status byte, then the
readiness test `config & SC == 0 or (config & SC > 0 and config & BSY == 0)`
decides between the big-endian sample and `None`. -/
def ADS1100.value (s : ADS1100) (resp : Nat × Nat × Nat) :
    ADS1100 × List BusOp × Except String (Option Nat) :=
  match toBytes1 s.config with
  | none => (s, [], Except.error overflowErr)
  | some cfgByte =>
    let s1 : ADS1100 := { s with buffer := resp, config := ((resp.2.2 : Nat) : Int) }
    let tr : List BusOp :=
      [BusOp.write s.addr [cfgByte], BusOp.sleep_ms 100,
        BusOp.readfrom_into s.addr 3]
    if pyAnd s1.config SC_BIT = 0 ∨
        (0 < pyAnd s1.config SC_BIT ∧ pyAnd s1.config ST_BSY_BIT = 0) then
      (s1, tr, Except.ok (some (((s1.buffer.1 <<< 8) ||| s1.buffer.2.1) &&& 0xFFFF)))
    else
      (s1, tr, Except.ok none)

/-- `ADS1100.voltage` (src lines 66-79).  `voltage = 0` (a Python `int`) is
returned when `value` is `None`; otherwise
`(value / (-1 * _MIN_CODE.get(rate) * gain)) * reference_voltage * ratio`,
a Python `float`.  A rate outside `_MIN_CODE` would make `-1 * None` raise
`TypeError`, and a zero denominator would raise `ZeroDivisionError`. -/
def ADS1100.voltage (s : ADS1100) (resp : Nat × Nat × Nat) :
    ADS1100 × List BusOp × Except String PyNum :=
  let r := s.value resp
  match r.2.2 with
  | Except.error e => (r.1, r.2.1, Except.error e)
  | Except.ok none => (r.1, r.2.1, Except.ok (PyNum.pint 0))
  | Except.ok (some v) =>
    match MIN_CODE r.1.rate with
    | none => (r.1, r.2.1, Except.error "TypeError")
    | some mc =>
      if -1 * mc * (r.1.gain : Int) = 0 then
        (r.1, r.2.1, Except.error "ZeroDivisionError")
      else
        (r.1, r.2.1, Except.ok (PyNum.pfloat
          ((((v : Nat) : ℚ) / ((-1 * mc * (r.1.gain : Int) : Int) : ℚ)
            * r.1.reference_voltage) * (r.1.pressure_scale : ℚ))))

/-- `ADS1100.mode` setter (src lines 86-90): stores the mode, updates shadow
config bit 4 via `(config & ~SC_BIT) | (mode << 4)` with no validation of
`mode`, then writes the new config byte. -/
def ADS1100.setMode (s : ADS1100) (m : Int) : ADS1100 × List BusOp × Except String Unit :=
  let s1 : ADS1100 :=
    { s with
        mode := m
        config := pyOr (pyAnd s.config (pyNot SC_BIT)) (pyShl m 4) }
  match toBytes1 s1.config with
  | none => (s1, [], Except.error overflowErr)
  | some b => (s1, [BusOp.write s1.addr [b]], Except.ok ())

/-- `ADS1100.rate` setter (src lines 99-110): rejects a rate outside
`_DATA_RATE` with a `ValueError` before touching anything; otherwise stores
the rate, updates shadow config bits 3-2 to the index of the rate in
`_DATA_RATE` via `(config & ~DR_BIT) | (index << 2)`, and writes the new
config byte. -/
def ADS1100.setRate (s : ADS1100) (data_rate : Nat) : ADS1100 × List BusOp × Except String Unit :=
  if data_rate ∈ DATA_RATE then
    let s1 : ADS1100 :=
      { s with
          rate := data_rate
          config := pyOr (pyAnd s.config (pyNot DR_BIT))
            (pyShl ((DATA_RATE.indexOf data_rate : Nat) : Int) 2) }
    match toBytes1 s1.config with
    | none => (s1, [], Except.error overflowErr)
    | some b => (s1, [BusOp.write s1.addr [b]], Except.ok ())
  else
    (s, [], Except.error rateErr)

/-- `ADS1100.gain` setter (src lines 119-128): rejects a gain outside
`_GAINS` with a `ValueError`; otherwise stores the gain, updates shadow
config bits 1-0 to the index of the gain in `_GAINS` via
`(config & ~PGA_BIT) | index`, and writes the new config byte. -/
def ADS1100.setGain (s : ADS1100) (gain : Nat) : ADS1100 × List BusOp × Except String Unit :=
  if gain ∈ GAINS then
    let s1 : ADS1100 :=
      { s with
          gain := gain
          config := pyOr (pyAnd s.config (pyNot PGA_BIT))
            ((GAINS.indexOf gain : Nat) : Int) }
    match toBytes1 s1.config with
    | none => (s1, [], Except.error overflowErr)
    | some b => (s1, [BusOp.write s1.addr [b]], Except.ok ())
  else
    (s, [], Except.error gainErr)

/-- A client-visible driver operation (used to describe reachable states). -/
inductive Op where
  | setRate (r : Nat)
  | setGain (g : Nat)
  | setMode (m : Int)
  | readValue (resp : Nat × Nat × Nat)
  | readVoltage (resp : Nat × Nat × Nat)

/-- State reached after one operation (exceptions propagate to the caller
but leave the driver in the state the source mutated it to). -/
def runOp (s : ADS1100) (op : Op) : ADS1100 :=
  match op with
  | Op.setRate r => (s.setRate r).1
  | Op.setGain g => (s.setGain g).1
  | Op.setMode m => (s.setMode m).1
  | Op.readValue resp => (s.value resp).1
  | Op.readVoltage resp => (s.voltage resp).1

/-- State reached after a sequence of operations. -/
def runOps (s : ADS1100) (ops : List Op) : ADS1100 := ops.foldl runOp s

/-- Modelled from the spec: the most recently successfully set rate (the
rate setter succeeds exactly on a rate in the allowed table), starting from
a default. -/
def specLastRate (ops : List Op) (r0 : Nat) : Nat :=
  ops.foldl (fun acc op =>
    match op with
    | Op.setRate r => if r ∈ DATA_RATE then r else acc
    | _ => acc) r0

/-- Modelled from the spec: the most recently successfully set gain,
starting from a default. -/
def specLastGain (ops : List Op) (g0 : Nat) : Nat :=
  ops.foldl (fun acc op =>
    match op with
    | Op.setGain g => if g ∈ GAINS then g else acc
    | _ => acc) g0

/-! ## Helper lemmas -/

/-- The readiness test the source performs on the status byte, phrased via
`Nat.testBit`: bit 4 (`SC`) clear, or bit 4 set and bit 7 (`BSY`) clear. -/
theorem ready_iff_testBit : ∀ st : Nat, st < 256 →
    ((pyAnd ((st : Nat) : Int) SC_BIT = 0 ∨
        (0 < pyAnd ((st : Nat) : Int) SC_BIT ∧
          pyAnd ((st : Nat) : Int) ST_BSY_BIT = 0)) ↔
      (Nat.testBit st 4 = false ∨ Nat.testBit st 7 = false)) := by
  decide

/-- Closed form of `value` when the shadow config is a valid byte. -/
theorem value_eq (s : ADS1100) (hc0 : 0 ≤ s.config) (hc1 : s.config < 256)
    (resp : Nat × Nat × Nat) :
    s.value resp =
      ({ s with buffer := resp, config := ((resp.2.2 : Nat) : Int) },
        [BusOp.write s.addr [s.config.toNat], BusOp.sleep_ms 100,
          BusOp.readfrom_into s.addr 3],
        Except.ok (if pyAnd ((resp.2.2 : Nat) : Int) SC_BIT = 0 ∨
            (0 < pyAnd ((resp.2.2 : Nat) : Int) SC_BIT ∧
              pyAnd ((resp.2.2 : Nat) : Int) ST_BSY_BIT = 0)
          then some (((resp.1 <<< 8) ||| resp.2.1) &&& 0xFFFF) else none)) := by
  have h : toBytes1 s.config = some s.config.toNat := by
    simp [toBytes1, hc0, hc1]
  simp only [ADS1100.value, h]
  split <;> rfl

/-- A `value` read never changes the stored rate, gain, or the calibration
parameters. -/
theorem value_frame (s : ADS1100) (resp : Nat × Nat × Nat) :
    (s.value resp).1.rate = s.rate ∧ (s.value resp).1.gain = s.gain ∧
      (s.value resp).1.reference_voltage = s.reference_voltage ∧
      (s.value resp).1.pressure_scale = s.pressure_scale := by
  rcases h : toBytes1 s.config with _ | b
  · simp [ADS1100.value, h]
  · simp only [ADS1100.value, h]
    split <;> simp

/-- Every entry of the `_MIN_CODE` table is negative. -/
theorem MIN_CODE_neg {r : Nat} {mc : Int} (h : MIN_CODE r = some mc) : mc < 0 := by
  unfold MIN_CODE at h
  split_ifs at h <;> simp_all <;> omega

/-! ## Claims -/

/-- C1: for a 3-byte device response `[msb, lsb, st]`, `value` returns the
big-endian combination `((msb <<< 8) ||| lsb) &&& 0xFFFF` exactly when
status bit 4 is clear (continuous mode), or bit 4 is set and bit 7 (busy)
is clear; otherwise it returns `none`, never a number (so never zero). -/
theorem value_readiness (s : ADS1100) (hc0 : 0 ≤ s.config) (hc1 : s.config < 256)
    (msb lsb st : Nat) (hst : st < 256) :
    (s.value (msb, lsb, st)).2.2 =
      Except.ok (if Nat.testBit st 4 = false ∨ Nat.testBit st 7 = false
        then some (((msb <<< 8) ||| lsb) &&& 0xFFFF) else none) ∧
    (Nat.testBit st 4 = true → Nat.testBit st 7 = true →
      ∀ n : Nat, (s.value (msb, lsb, st)).2.2 ≠ Except.ok (some n)) := by
  have hv := value_eq s hc0 hc1 (msb, lsb, st)
  have hiff := ready_iff_testBit st hst
  have h1 : (s.value (msb, lsb, st)).2.2 =
      Except.ok (if Nat.testBit st 4 = false ∨ Nat.testBit st 7 = false
        then some (((msb <<< 8) ||| lsb) &&& 0xFFFF) else none) := by
    rw [hv]
    exact congrArg Except.ok (if_congr hiff rfl rfl)
  refine ⟨h1, ?_⟩
  intro h4 h7 n
  rw [h1, if_neg (by simp [h4, h7])]
  simp

/-- C1 witness: concrete instance (single-shot busy status byte `0x90`). -/
theorem value_readiness_witness :
    (0 : Int) ≤ (ADS1100.init 72 1 2).config ∧ (ADS1100.init 72 1 2).config < 256 ∧
    (0x90 : Nat) < 256 ∧
    ((ADS1100.init 72 1 2).value (0x12, 0x34, 0x90)).2.2 =
      Except.ok (if Nat.testBit 0x90 4 = false ∨ Nat.testBit 0x90 7 = false
        then some (((0x12 <<< 8) ||| 0x34) &&& 0xFFFF) else none) :=
  ⟨by decide, by decide, by decide,
    (value_readiness (ADS1100.init 72 1 2) (by decide) (by decide)
      0x12 0x34 0x90 (by decide)).1⟩

/-- C5: every `value` call performs, in order, one single-byte write of the
current shadow config byte to the device address, a fixed 100 ms delay, and
one 3-byte read into the scratch buffer — and nothing else; it then replaces
the shadow config with the returned third (status) byte. -/
theorem value_bus_trace (s : ADS1100) (hc0 : 0 ≤ s.config) (hc1 : s.config < 256)
    (resp : Nat × Nat × Nat) :
    (s.value resp).2.1 =
      [BusOp.write s.addr [s.config.toNat], BusOp.sleep_ms 100,
        BusOp.readfrom_into s.addr 3] ∧
    (s.value resp).1.config = ((resp.2.2 : Nat) : Int) ∧
    (s.value resp).1.buffer = resp := by
  rw [value_eq s hc0 hc1 resp]
  exact ⟨rfl, rfl, rfl⟩

/-- C5 witness: concrete instance. -/
theorem value_bus_trace_witness :
    (0 : Int) ≤ (ADS1100.init 72 1 2).config ∧ (ADS1100.init 72 1 2).config < 256 ∧
    ((ADS1100.init 72 1 2).value (0x12, 0x34, 0x00)).2.1 =
      [BusOp.write (ADS1100.init 72 1 2).addr [(ADS1100.init 72 1 2).config.toNat],
        BusOp.sleep_ms 100, BusOp.readfrom_into (ADS1100.init 72 1 2).addr 3] ∧
    ((ADS1100.init 72 1 2).value (0x12, 0x34, 0x00)).1.config = ((0x00 : Nat) : Int) ∧
    ((ADS1100.init 72 1 2).value (0x12, 0x34, 0x00)).1.buffer = (0x12, 0x34, 0x00) :=
  ⟨by decide, by decide,
    value_bus_trace (ADS1100.init 72 1 2) (by decide) (by decide) (0x12, 0x34, 0x00)⟩

/-- C2: whenever the raw read is present with value `raw`, `voltage` returns
the float `(raw / (-minCode[rate] * gain)) * reference_voltage * ratio`,
with `minCode` the `_MIN_CODE` table indexed by the current stored rate. -/
theorem voltage_formula (s : ADS1100)
    (mc : Int) (hmc : MIN_CODE s.rate = some mc) (hg : 0 < s.gain)
    (resp : Nat × Nat × Nat) (v : Nat)
    (hv : (s.value resp).2.2 = Except.ok (some v)) :
    (s.voltage resp).2.2 = Except.ok (PyNum.pfloat
      ((((v : Nat) : ℚ) / ((-mc * (s.gain : Int) : Int) : ℚ)
        * s.reference_voltage) * (s.pressure_scale : ℚ))) := by
  obtain ⟨hfr, hfg, hfv, hfp⟩ := value_frame s resp
  have hmcneg : mc < 0 := MIN_CODE_neg hmc
  have hden : ¬(-1 * mc * (((s.value resp).1.gain : Nat) : Int) = 0) := by
    rw [hfg]
    have h1 : (0 : Int) < -1 * mc := by omega
    have h2 : (0 : Int) < ((s.gain : Nat) : Int) := by exact_mod_cast hg
    exact ne_of_gt (mul_pos h1 h2)
  simp only [ADS1100.voltage, hv, hfr, hmc, if_neg hden]
  rw [hfg, hfv, hfp]
  norm_num

/-- C2 witness: rate 8 (min code −32768), gain 1, reference voltage 3.3,
pressure ratio 2, raw 16384 give exactly 3.3 volts. -/
theorem voltage_formula_witness :
    ((ADS1100.init 72 (33/10) 2).voltage (0x40, 0x00, 0x00)).2.2 =
      Except.ok (PyNum.pfloat (33/10)) := by
  have h := voltage_formula (ADS1100.init 72 (33/10) 2)
    (-32768) (by decide) (by decide) (0x40, 0x00, 0x00) 16384 (by decide)
  rw [h]
  norm_num [ADS1100.init]

/-- C7 counterexample: on a not-ready response the source's `voltage`
returns the Python `int` `0` (the initializer `voltage = 0` in src line 69),
not a `float` `0.0` as the claim states. -/
theorem voltage_absent_cex :
    ((ADS1100.init 72 1 2).voltage (0x12, 0x34, 0x90)).2.2 =
      Except.ok (PyNum.pint 0) ∧
    PyNum.pint 0 ≠ PyNum.pfloat 0 := by
  exact ⟨by decide, by decide⟩

/-- C7 amended: whenever the underlying raw read returns absence, `voltage`
returns the integer `0` (numerically zero — a Python `int`, not a float
`0.0`), collapsing the distinction between a missing sample and an actual
zero-volt reading. -/
theorem voltage_absent_zero (s : ADS1100) (resp : Nat × Nat × Nat)
    (habs : (s.value resp).2.2 = Except.ok none) :
    (s.voltage resp).2.2 = Except.ok (PyNum.pint 0) ∧
    PyNum.toRat (PyNum.pint 0) = 0 := by
  constructor
  · simp only [ADS1100.voltage, habs]
  · rfl

/-- C7 witness: concrete not-ready response. -/
theorem voltage_absent_zero_witness :
    ((ADS1100.init 72 1 2).value (0x12, 0x34, 0x90)).2.2 = Except.ok none ∧
    (((ADS1100.init 72 1 2).voltage (0x12, 0x34, 0x90)).2.2 =
        Except.ok (PyNum.pint 0) ∧
      PyNum.toRat (PyNum.pint 0) = 0) :=
  ⟨by decide, voltage_absent_zero (ADS1100.init 72 1 2) (0x12, 0x34, 0x90) (by decide)⟩

/-- C9: with positive construction parameters the `voltage` property never
returns a negative number, for any device response: the raw value is the
unsigned masked 16-bit pattern in `[0, 65535]` (the sign bit is never
reinterpreted) and the scale denominator `-minCode * gain` is never
negative, so every returned number is non-negative. -/
theorem voltage_nonneg (s : ADS1100) (hrv : 0 < s.reference_voltage)
    (hpr : 0 < s.pressure_scale) (resp : Nat × Nat × Nat) :
    (∀ n : PyNum, (s.voltage resp).2.2 = Except.ok n → 0 ≤ n.toRat) ∧
    (∀ v : Nat, (s.value resp).2.2 = Except.ok (some v) → v ≤ 65535) := by
  obtain ⟨hfr, hfg, hfv, hfp⟩ := value_frame s resp
  constructor
  · intro n hn
    simp only [ADS1100.voltage] at hn
    cases h : (s.value resp).2.2 with
    | error e => simp [h] at hn
    | ok ov =>
      cases ov with
      | none =>
        simp only [h] at hn
        cases hn
        simp [PyNum.toRat]
      | some v =>
        simp only [h] at hn
        cases hmc : MIN_CODE (s.value resp).1.rate with
        | none => simp [hmc] at hn
        | some mc =>
          have hmcneg : mc < 0 := MIN_CODE_neg hmc
          simp only [hmc] at hn
          split at hn
          · cases hn
          · cases hn
            have hden : (0 : ℚ) ≤ ((-1 * mc * (((s.value resp).1.gain : Nat) : Int) : Int) : ℚ) := by
              have h1 : (0 : Int) ≤ -1 * mc * (((s.value resp).1.gain : Nat) : Int) := by
                have h2 : (0 : Int) ≤ -1 * mc := by omega
                have h3 : (0 : Int) ≤ (((s.value resp).1.gain : Nat) : Int) :=
                  Int.natCast_nonneg _
                exact mul_nonneg h2 h3
              exact_mod_cast h1
            have hrv' : (0 : ℚ) ≤ (s.value resp).1.reference_voltage := by
              rw [hfv]; exact le_of_lt hrv
            have hpr' : (0 : ℚ) ≤ (((s.value resp).1.pressure_scale : Int) : ℚ) := by
              rw [hfp]; exact_mod_cast le_of_lt hpr
            simp only [PyNum.toRat]
            exact mul_nonneg (mul_nonneg (div_nonneg (Nat.cast_nonneg v) hden) hrv') hpr'
  · intro v hv
    rcases h : toBytes1 s.config with _ | b
    · simp [ADS1100.value, h] at hv
    · simp only [ADS1100.value, h] at hv
      split at hv
      · cases hv with
        | refl => exact Nat.and_le_right
      · simp at hv

/-- C9 witness: concrete not-ready response, returned number is zero. -/
theorem voltage_nonneg_witness :
    (0 : ℚ) < (ADS1100.init 72 1 2).reference_voltage ∧
    (0 : Int) < (ADS1100.init 72 1 2).pressure_scale ∧
    (0 : ℚ) ≤ PyNum.toRat (PyNum.pint 0) :=
  ⟨by norm_num [ADS1100.init], by decide,
    (voltage_nonneg (ADS1100.init 72 1 2) (by norm_num [ADS1100.init]) (by decide)
      (0x12, 0x34, 0x90)).1 (PyNum.pint 0) (by decide)⟩

/-- Facts about the rate setter's config update, for every config byte and
table index: the new config is again a byte and its bits 3-2 hold the
index. -/
theorem rateCfg_facts : ∀ c : Nat, c < 256 → ∀ i : Nat, i < 4 →
    (0 ≤ pyOr (pyAnd ((c : Nat) : Int) (pyNot DR_BIT)) (pyShl ((i : Nat) : Int) 2) ∧
      pyOr (pyAnd ((c : Nat) : Int) (pyNot DR_BIT)) (pyShl ((i : Nat) : Int) 2) < 256 ∧
      ((pyOr (pyAnd ((c : Nat) : Int) (pyNot DR_BIT)) (pyShl ((i : Nat) : Int) 2)).toNat >>> 2) &&& 3 = i) := by
  decide

/-- Facts about the gain setter's config update, for every config byte and
table index: the new config is again a byte and its bits 1-0 hold the
index. -/
theorem gainCfg_facts : ∀ c : Nat, c < 256 → ∀ j : Nat, j < 4 →
    (0 ≤ pyOr (pyAnd ((c : Nat) : Int) (pyNot PGA_BIT)) ((j : Nat) : Int) ∧
      pyOr (pyAnd ((c : Nat) : Int) (pyNot PGA_BIT)) ((j : Nat) : Int) < 256 ∧
      (pyOr (pyAnd ((c : Nat) : Int) (pyNot PGA_BIT)) ((j : Nat) : Int)).toNat &&& 3 = j) := by
  decide

/-- C3 counterexample: the rejection message of the rate (resp. gain)
setter does not mention the offending value — for the invalid rate 64 the
raised message does not contain the digits "64" (and similarly "3" for the
gain setter); it only enumerates the valid set. -/
theorem rate_error_message_cex :
    ((ADS1100.init 72 1 2).setRate 64).2.2 = Except.error rateErr ∧
    ((ADS1100.init 72 1 2).setGain 3).2.2 = Except.error gainErr ∧
    ¬ ("64".toList <:+: rateErr.toList) ∧
    ¬ ("3".toList <:+: gainErr.toList) :=
  ⟨by decide, by decide, by decide, by decide⟩

/-- C3 amended: for every rate outside `{128, 32, 16, 8}` and every gain
outside `{1, 2, 4, 8}`, the corresponding setter fails immediately with an
invalid-argument error whose message is a fixed string enumerating the
valid set (it does not mention the offending value), attempts no hardware
transfer, and leaves the whole driver state — including the stored rate
(resp. gain) and the shadow config byte — unchanged. -/
theorem invalid_rate_gain_rejected (s : ADS1100) (r : Nat) (hr : r ∉ DATA_RATE)
    (g : Nat) (hgm : g ∉ GAINS) :
    s.setRate r = (s, [], Except.error rateErr) ∧
    s.setGain g = (s, [], Except.error gainErr) := by
  constructor
  · simp only [ADS1100.setRate]
    rw [if_neg hr]
  · simp only [ADS1100.setGain]
    rw [if_neg hgm]

/-- C3 witness: rate 64 and gain 3 are rejected without effect. -/
theorem invalid_rate_gain_rejected_witness :
    (64 : Nat) ∉ DATA_RATE ∧ (3 : Nat) ∉ GAINS ∧
    ((ADS1100.init 72 1 2).setRate 64 =
      (ADS1100.init 72 1 2, [], Except.error rateErr) ∧
    (ADS1100.init 72 1 2).setGain 3 =
      (ADS1100.init 72 1 2, [], Except.error gainErr)) :=
  ⟨by decide, by decide,
    invalid_rate_gain_rejected (ADS1100.init 72 1 2) 64 (by decide) 3 (by decide)⟩

/-- C4: for every rate in `{128, 32, 16, 8}`, setting then getting the rate
returns the same value and the config byte written to hardware has bits 3-2
equal to the rate's index in `_DATA_RATE`; analogously for every gain in
`{1, 2, 4, 8}` with bits 1-0 and `_GAINS`. -/
theorem rate_gain_roundtrip (s : ADS1100) (hc0 : 0 ≤ s.config) (hc1 : s.config < 256)
    (r : Nat) (hr : r ∈ DATA_RATE) (g : Nat) (hgm : g ∈ GAINS) :
    ((s.setRate r).1.rate = r ∧ (s.setRate r).2.2 = Except.ok () ∧
      (s.setRate r).2.1 = [BusOp.write s.addr [(s.setRate r).1.config.toNat]] ∧
      ((s.setRate r).1.config.toNat >>> 2) &&& 3 = DATA_RATE.indexOf r) ∧
    ((s.setGain g).1.gain = g ∧ (s.setGain g).2.2 = Except.ok () ∧
      (s.setGain g).2.1 = [BusOp.write s.addr [(s.setGain g).1.config.toNat]] ∧
      (s.setGain g).1.config.toNat &&& 3 = GAINS.indexOf g) := by
  have hc : ((s.config.toNat : Nat) : Int) = s.config := Int.toNat_of_nonneg hc0
  have hcn : s.config.toNat < 256 := by omega
  constructor
  · have hr' : r = 128 ∨ r = 32 ∨ r = 16 ∨ r = 8 := by simpa [DATA_RATE] using hr
    have hidx : DATA_RATE.indexOf r < 4 := by
      rcases hr' with rfl | rfl | rfl | rfl <;> decide
    obtain ⟨hb0, hb1, hbits⟩ := rateCfg_facts s.config.toNat hcn (DATA_RATE.indexOf r) hidx
    rw [hc] at hb0 hb1 hbits
    simp only [ADS1100.setRate]
    rw [if_pos hr]
    simp only [toBytes1]
    rw [if_pos ⟨hb0, hb1⟩]
    exact ⟨rfl, rfl, rfl, hbits⟩
  · have hg' : g = 1 ∨ g = 2 ∨ g = 4 ∨ g = 8 := by simpa [GAINS] using hgm
    have hidx : GAINS.indexOf g < 4 := by
      rcases hg' with rfl | rfl | rfl | rfl <;> decide
    obtain ⟨hb0, hb1, hbits⟩ := gainCfg_facts s.config.toNat hcn (GAINS.indexOf g) hidx
    rw [hc] at hb0 hb1 hbits
    simp only [ADS1100.setGain]
    rw [if_pos hgm]
    simp only [toBytes1]
    rw [if_pos ⟨hb0, hb1⟩]
    exact ⟨rfl, rfl, rfl, hbits⟩

/-- C4 witness: rate 32 (index 1) and gain 4 (index 2) from the initial
state. -/
theorem rate_gain_roundtrip_witness :
    (0 : Int) ≤ (ADS1100.init 72 1 2).config ∧ (ADS1100.init 72 1 2).config < 256 ∧
    (32 : Nat) ∈ DATA_RATE ∧ (4 : Nat) ∈ GAINS ∧
    ((((ADS1100.init 72 1 2).setRate 32).1.rate = 32 ∧
        ((ADS1100.init 72 1 2).setRate 32).2.2 = Except.ok () ∧
        ((ADS1100.init 72 1 2).setRate 32).2.1 =
          [BusOp.write (ADS1100.init 72 1 2).addr
            [((ADS1100.init 72 1 2).setRate 32).1.config.toNat]] ∧
        (((ADS1100.init 72 1 2).setRate 32).1.config.toNat >>> 2) &&& 3 =
          DATA_RATE.indexOf 32) ∧
      (((ADS1100.init 72 1 2).setGain 4).1.gain = 4 ∧
        ((ADS1100.init 72 1 2).setGain 4).2.2 = Except.ok () ∧
        ((ADS1100.init 72 1 2).setGain 4).2.1 =
          [BusOp.write (ADS1100.init 72 1 2).addr
            [((ADS1100.init 72 1 2).setGain 4).1.config.toNat]] ∧
        ((ADS1100.init 72 1 2).setGain 4).1.config.toNat &&& 3 = GAINS.indexOf 4)) :=
  ⟨by decide, by decide, by decide, by decide,
    rate_gain_roundtrip (ADS1100.init 72 1 2) (by decide) (by decide)
      32 (by decide) 4 (by decide)⟩

/-- A Python AND with a non-negative left operand is non-negative. -/
theorem pyAnd_nonneg (a b : Int) (ha : 0 ≤ a) : 0 ≤ pyAnd a b := by
  unfold pyAnd
  rw [if_pos ha]
  split <;> exact Int.natCast_nonneg _

/-- A Python OR of a non-negative operand with an operand at least 256 is
itself at least 256 (the high bit survives). -/
theorem pyOr_big (a b : Int) (ha : 0 ≤ a) (hb : 256 ≤ b) : 256 ≤ pyOr a b := by
  unfold pyOr
  rw [if_pos ha, if_pos (by omega : (0 : Int) ≤ b)]
  have hbn : (256 : Nat) ≤ b.toNat := by omega
  obtain ⟨i, hi, hbit⟩ :=
    Nat.ge_two_pow_implies_high_bit_true (x := b.toNat) (n := 8) (by simpa using hbn)
  have hbit2 : (a.toNat ||| b.toNat).testBit i = true := by
    simp [Nat.testBit_or, hbit]
  have h2 : 2 ^ i ≤ a.toNat ||| b.toNat := Nat.testBit_implies_ge hbit2
  have h3 : (256 : Nat) ≤ 2 ^ i := by
    calc (256 : Nat) = 2 ^ 8 := by norm_num
    _ ≤ 2 ^ i := Nat.pow_le_pow_right (by norm_num) hi
  exact_mod_cast le_trans h3 h2

/-- A Python OR of a non-negative operand with a negative operand is
negative (two's complement: the sign bit survives). -/
theorem pyOr_neg (a b : Int) (ha : 0 ≤ a) (hb : b < 0) : pyOr a b < 0 := by
  unfold pyOr
  rw [if_pos ha, if_neg (by omega : ¬ (0 : Int) ≤ b)]
  have := Int.natCast_nonneg ((-b - 1).toNat - ((-b - 1).toNat &&& a.toNat))
  omega

/-- Facts about the mode setter's config update for mode 0: the new config
is a byte, its bit 4 is clear, and the other bits are unchanged. -/
theorem modeCfg0 : ∀ c : Nat, c < 256 →
    (0 ≤ pyOr (pyAnd ((c : Nat) : Int) (pyNot SC_BIT)) (pyShl (0 : Int) 4) ∧
      pyOr (pyAnd ((c : Nat) : Int) (pyNot SC_BIT)) (pyShl (0 : Int) 4) < 256 ∧
      pyAnd (pyOr (pyAnd ((c : Nat) : Int) (pyNot SC_BIT)) (pyShl (0 : Int) 4)) SC_BIT =
        pyShl (0 : Int) 4 ∧
      pyAnd (pyOr (pyAnd ((c : Nat) : Int) (pyNot SC_BIT)) (pyShl (0 : Int) 4)) (pyNot SC_BIT) =
        pyAnd ((c : Nat) : Int) (pyNot SC_BIT)) := by
  decide

/-- Facts about the mode setter's config update for mode 1: the new config
is a byte, its bit 4 is set, and the other bits are unchanged. -/
theorem modeCfg1 : ∀ c : Nat, c < 256 →
    (0 ≤ pyOr (pyAnd ((c : Nat) : Int) (pyNot SC_BIT)) (pyShl (1 : Int) 4) ∧
      pyOr (pyAnd ((c : Nat) : Int) (pyNot SC_BIT)) (pyShl (1 : Int) 4) < 256 ∧
      pyAnd (pyOr (pyAnd ((c : Nat) : Int) (pyNot SC_BIT)) (pyShl (1 : Int) 4)) SC_BIT =
        pyShl (1 : Int) 4 ∧
      pyAnd (pyOr (pyAnd ((c : Nat) : Int) (pyNot SC_BIT)) (pyShl (1 : Int) 4)) (pyNot SC_BIT) =
        pyAnd ((c : Nat) : Int) (pyNot SC_BIT)) := by
  decide

/-- The mode setter's config update stays a byte for every mode in
`[0, 15]` and every config byte. -/
theorem modeCfg_bound : ∀ c : Nat, c < 256 → ∀ m : Nat, m < 16 →
    (0 ≤ pyOr (pyAnd ((c : Nat) : Int) (pyNot SC_BIT)) (pyShl ((m : Nat) : Int) 4) ∧
      pyOr (pyAnd ((c : Nat) : Int) (pyNot SC_BIT)) (pyShl ((m : Nat) : Int) 4) < 256) := by
  decide

/-- C6: setting the mode to `m ∈ {CONTINUOUS, SINGLE}` stores `m`, sets bit
4 of the shadow config to `m` leaving all other bits unchanged, performs
exactly one single-byte hardware write of the full new config byte, and the
mode getter afterwards returns `m`. -/
theorem mode_set_effects (s : ADS1100) (hc0 : 0 ≤ s.config) (hc1 : s.config < 256)
    (m : Int) (hm : m = CONTINUOUS ∨ m = SINGLE) :
    (s.setMode m).1.mode = m ∧
    pyAnd (s.setMode m).1.config SC_BIT = pyShl m 4 ∧
    pyAnd (s.setMode m).1.config (pyNot SC_BIT) = pyAnd s.config (pyNot SC_BIT) ∧
    (s.setMode m).2.1 = [BusOp.write s.addr [(s.setMode m).1.config.toNat]] ∧
    (((s.setMode m).1.config.toNat : Nat) : Int) = (s.setMode m).1.config ∧
    (s.setMode m).2.2 = Except.ok () := by
  have hc : ((s.config.toNat : Nat) : Int) = s.config := Int.toNat_of_nonneg hc0
  have hcn : s.config.toNat < 256 := by omega
  rcases hm with rfl | rfl
  · obtain ⟨hb0, hb1, hbit, hframe⟩ := modeCfg0 s.config.toNat hcn
    rw [hc] at hb0 hb1 hbit hframe
    simp only [ADS1100.setMode, CONTINUOUS, toBytes1]
    rw [if_pos ⟨hb0, hb1⟩]
    exact ⟨rfl, hbit, hframe, rfl, Int.toNat_of_nonneg hb0, rfl⟩
  · obtain ⟨hb0, hb1, hbit, hframe⟩ := modeCfg1 s.config.toNat hcn
    rw [hc] at hb0 hb1 hbit hframe
    simp only [ADS1100.setMode, SINGLE, toBytes1]
    rw [if_pos ⟨hb0, hb1⟩]
    exact ⟨rfl, hbit, hframe, rfl, Int.toNat_of_nonneg hb0, rfl⟩

/-- C6 witness: switching the initial state to single-shot mode. -/
theorem mode_set_effects_witness :
    (0 : Int) ≤ (ADS1100.init 72 1 2).config ∧ (ADS1100.init 72 1 2).config < 256 ∧
    (SINGLE = CONTINUOUS ∨ SINGLE = SINGLE) ∧
    (((ADS1100.init 72 1 2).setMode SINGLE).1.mode = SINGLE ∧
      pyAnd ((ADS1100.init 72 1 2).setMode SINGLE).1.config SC_BIT = pyShl SINGLE 4 ∧
      pyAnd ((ADS1100.init 72 1 2).setMode SINGLE).1.config (pyNot SC_BIT) =
        pyAnd (ADS1100.init 72 1 2).config (pyNot SC_BIT) ∧
      ((ADS1100.init 72 1 2).setMode SINGLE).2.1 =
        [BusOp.write (ADS1100.init 72 1 2).addr
          [((ADS1100.init 72 1 2).setMode SINGLE).1.config.toNat]] ∧
      ((((ADS1100.init 72 1 2).setMode SINGLE).1.config.toNat : Nat) : Int) =
        ((ADS1100.init 72 1 2).setMode SINGLE).1.config ∧
      ((ADS1100.init 72 1 2).setMode SINGLE).2.2 = Except.ok ()) :=
  ⟨by decide, by decide, Or.inr rfl,
    mode_set_effects (ADS1100.init 72 1 2) (by decide) (by decide) SINGLE (Or.inr rfl)⟩

/-- C8 counterexample: the mode setter accepts 16, stores it and corrupts
the shadow config (bit 8 set), but then raises `OverflowError` from the
byte conversion, so no hardware write is performed — contradicting the
claim that the write still happens for every integer mode. -/
theorem mode_overflow_cex :
    ((ADS1100.init 72 1 2).setMode 16).2.2 = Except.error overflowErr ∧
    ((ADS1100.init 72 1 2).setMode 16).2.1 = [] ∧
    ((ADS1100.init 72 1 2).setMode 16).1.mode = 16 ∧
    ((ADS1100.init 72 1 2).setMode 16).1.config = 0x18C :=
  ⟨by decide, by decide, by decide, by decide⟩

/-- C8 amended: the mode setter performs no argument validation: for every
integer `m` it stores `m` and sets the shadow config to
`(config & ~SC_BIT) | (m << 4)` (so a mode outside `{0, 1}` alters bits
above bit 4), but the hardware write only happens for `0 ≤ m < 16`, where
the new config still fits one unsigned byte; for `m < 0` or `m ≥ 16` the
byte conversion raises `OverflowError` and no bus write occurs (the stored
mode and config keep the new values). -/
theorem mode_no_validation (s : ADS1100) (hc0 : 0 ≤ s.config) (hc1 : s.config < 256)
    (m : Int) :
    (s.setMode m).1.mode = m ∧
    (s.setMode m).1.config = pyOr (pyAnd s.config (pyNot SC_BIT)) (pyShl m 4) ∧
    (0 ≤ m → m < 16 →
      (s.setMode m).2.1 = [BusOp.write s.addr [(s.setMode m).1.config.toNat]] ∧
      (s.setMode m).2.2 = Except.ok ()) ∧
    ((m < 0 ∨ 16 ≤ m) →
      (s.setMode m).2.1 = [] ∧ (s.setMode m).2.2 = Except.error overflowErr) := by
  have hshl : pyShl m 4 = m * 16 := by
    simp [pyShl]
  refine ⟨?_, ?_, ?_, ?_⟩
  · rcases htb : toBytes1 (pyOr (pyAnd s.config (pyNot SC_BIT)) (pyShl m 4)) with _ | b <;>
      simp only [ADS1100.setMode, htb]
  · rcases htb : toBytes1 (pyOr (pyAnd s.config (pyNot SC_BIT)) (pyShl m 4)) with _ | b <;>
      simp only [ADS1100.setMode, htb]
  · intro h0 h16
    have hc : ((s.config.toNat : Nat) : Int) = s.config := Int.toNat_of_nonneg hc0
    have hm' : ((m.toNat : Nat) : Int) = m := Int.toNat_of_nonneg h0
    obtain ⟨hb0, hb1⟩ := modeCfg_bound s.config.toNat (by omega) m.toNat (by omega)
    rw [hc, hm'] at hb0 hb1
    simp only [ADS1100.setMode, toBytes1]
    rw [if_pos ⟨hb0, hb1⟩]
    simp
  · intro h
    have hA : 0 ≤ pyAnd s.config (pyNot SC_BIT) := pyAnd_nonneg _ _ hc0
    have hX : toBytes1 (pyOr (pyAnd s.config (pyNot SC_BIT)) (pyShl m 4)) = none := by
      rcases h with hneg | hbig
      · have hlt : pyOr (pyAnd s.config (pyNot SC_BIT)) (pyShl m 4) < 0 :=
          pyOr_neg _ _ hA (by rw [hshl]; omega)
        have hcond : ¬(0 ≤ pyOr (pyAnd s.config (pyNot SC_BIT)) (pyShl m 4) ∧
            pyOr (pyAnd s.config (pyNot SC_BIT)) (pyShl m 4) < 256) := by omega
        simp [toBytes1, hcond]
      · have hge : 256 ≤ pyOr (pyAnd s.config (pyNot SC_BIT)) (pyShl m 4) :=
          pyOr_big _ _ hA (by rw [hshl]; omega)
        have hcond : ¬(0 ≤ pyOr (pyAnd s.config (pyNot SC_BIT)) (pyShl m 4) ∧
            pyOr (pyAnd s.config (pyNot SC_BIT)) (pyShl m 4) < 256) := by omega
        simp [toBytes1, hcond]
    simp only [ADS1100.setMode, hX]
    simp

/-- C8 witness: mode 2 (outside `{0, 1}`) is stored, alters bit 5, and is
still written; the hypotheses of the theorem hold for the initial state. -/
theorem mode_no_validation_witness :
    (0 : Int) ≤ (ADS1100.init 72 1 2).config ∧ (ADS1100.init 72 1 2).config < 256 ∧
    (((ADS1100.init 72 1 2).setMode 2).1.mode = 2 ∧
      ((ADS1100.init 72 1 2).setMode 2).1.config =
        pyOr (pyAnd (ADS1100.init 72 1 2).config (pyNot SC_BIT)) (pyShl 2 4)) :=
  ⟨by decide, by decide,
    ⟨(mode_no_validation (ADS1100.init 72 1 2) (by decide) (by decide) 2).1,
      (mode_no_validation (ADS1100.init 72 1 2) (by decide) (by decide) 2).2.1⟩⟩

/-- The state `voltage` leaves behind is the state of the underlying
`value` read. -/
theorem voltage_state (s : ADS1100) (resp : Nat × Nat × Nat) :
    (s.voltage resp).1 = (s.value resp).1 := by
  simp only [ADS1100.voltage]
  split
  · rfl
  · rfl
  · split
    · rfl
    · split <;> rfl

/-- Effect of one operation on the stored rate: only a rate-setter call
with an argument in the table changes it. -/
theorem runOp_rate (s : ADS1100) (op : Op) :
    (runOp s op).rate = (match op with
      | Op.setRate r => if r ∈ DATA_RATE then r else s.rate
      | _ => s.rate) := by
  cases op with
  | setRate r =>
    simp only [runOp, ADS1100.setRate]
    split
    · rcases htb : toBytes1 _ with _ | b <;> simp only [htb]
    · rfl
  | setGain g =>
    simp only [runOp, ADS1100.setGain]
    split
    · rcases htb : toBytes1 _ with _ | b <;> simp only [htb]
    · rfl
  | setMode m =>
    simp only [runOp, ADS1100.setMode]
    rcases htb : toBytes1 _ with _ | b <;> simp only [htb]
  | readValue resp => exact (value_frame s resp).1
  | readVoltage resp =>
    show (s.voltage resp).1.rate = s.rate
    rw [voltage_state]
    exact (value_frame s resp).1
  
/-- Effect of one operation on the stored gain. -/
theorem runOp_gain (s : ADS1100) (op : Op) :
    (runOp s op).gain = (match op with
      | Op.setGain g => if g ∈ GAINS then g else s.gain
      | _ => s.gain) := by
  cases op with
  | setRate r =>
    simp only [runOp, ADS1100.setRate]
    split
    · rcases htb : toBytes1 _ with _ | b <;> simp only [htb]
    · rfl
  | setGain g =>
    simp only [runOp, ADS1100.setGain]
    split
    · rcases htb : toBytes1 _ with _ | b <;> simp only [htb]
    · rfl
  | setMode m =>
    simp only [runOp, ADS1100.setMode]
    rcases htb : toBytes1 _ with _ | b <;> simp only [htb]
  | readValue resp => exact (value_frame s resp).2.1
  | readVoltage resp =>
    show (s.voltage resp).1.gain = s.gain
    rw [voltage_state]
    exact (value_frame s resp).2.1

/-- The stored rate after any operation sequence is the last successfully
set rate. -/
theorem runOps_rate : ∀ (ops : List Op) (s : ADS1100),
    (runOps s ops).rate = specLastRate ops s.rate := by
  intro ops
  induction ops with
  | nil => intro s; rfl
  | cons op rest ih =>
    intro s
    cases op with
    | setRate r =>
      show (runOps (runOp s (Op.setRate r)) rest).rate =
          specLastRate rest (if r ∈ DATA_RATE then r else s.rate)
      rw [ih]
      simp only [runOp_rate]
    | setGain g =>
      show (runOps (runOp s (Op.setGain g)) rest).rate = specLastRate rest s.rate
      rw [ih]
      simp only [runOp_rate]
    | setMode m =>
      show (runOps (runOp s (Op.setMode m)) rest).rate = specLastRate rest s.rate
      rw [ih]
      simp only [runOp_rate]
    | readValue resp =>
      show (runOps (runOp s (Op.readValue resp)) rest).rate = specLastRate rest s.rate
      rw [ih]
      simp only [runOp_rate]
    | readVoltage resp =>
      show (runOps (runOp s (Op.readVoltage resp)) rest).rate = specLastRate rest s.rate
      rw [ih]
      simp only [runOp_rate]

/-- The stored gain after any operation sequence is the last successfully
set gain. -/
theorem runOps_gain : ∀ (ops : List Op) (s : ADS1100),
    (runOps s ops).gain = specLastGain ops s.gain := by
  intro ops
  induction ops with
  | nil => intro s; rfl
  | cons op rest ih =>
    intro s
    cases op with
    | setRate r =>
      show (runOps (runOp s (Op.setRate r)) rest).gain = specLastGain rest s.gain
      rw [ih]
      simp only [runOp_gain]
    | setGain g =>
      show (runOps (runOp s (Op.setGain g)) rest).gain =
          specLastGain rest (if g ∈ GAINS then g else s.gain)
      rw [ih]
      simp only [runOp_gain]
    | setMode m =>
      show (runOps (runOp s (Op.setMode m)) rest).gain = specLastGain rest s.gain
      rw [ih]
      simp only [runOp_gain]
    | readValue resp =>
      show (runOps (runOp s (Op.readValue resp)) rest).gain = specLastGain rest s.gain
      rw [ih]
      simp only [runOp_gain]
    | readVoltage resp =>
      show (runOps (runOp s (Op.readVoltage resp)) rest).gain = specLastGain rest s.gain
      rw [ih]
      simp only [runOp_gain]

/-- C10: after any operation sequence the rate and gain getters return the
most recently successfully set values (defaults 8 and 1), even though a
`value` read replaces the whole shadow config with the device status byte:
concretely, after setting rate 128 and reading a response with status byte
`0x0C`, the getter still reports 128 while the shadow config's bits 3-2
encode index 3 (≠ index of 128), and the voltage scale keeps using the
stored rate's min code −2048. -/
theorem getters_track_last_set :
    (∀ (a : Nat) (rv : ℚ) (pf : Int) (ops : List Op),
        (runOps (ADS1100.init a rv pf) ops).rate = specLastRate ops 8 ∧
        (runOps (ADS1100.init a rv pf) ops).gain = specLastGain ops 1) ∧
    ((runOps (ADS1100.init 72 1 2) [Op.setRate 128, Op.readValue (0, 0, 12)]).rate = 128 ∧
      (runOps (ADS1100.init 72 1 2) [Op.setRate 128, Op.readValue (0, 0, 12)]).config = 12 ∧
      ((runOps (ADS1100.init 72 1 2) [Op.setRate 128, Op.readValue (0, 0, 12)]).config.toNat >>> 2) &&& 3 ≠
        DATA_RATE.indexOf
          (runOps (ADS1100.init 72 1 2) [Op.setRate 128, Op.readValue (0, 0, 12)]).rate ∧
      MIN_CODE (runOps (ADS1100.init 72 1 2) [Op.setRate 128, Op.readValue (0, 0, 12)]).rate =
        some (-2048)) := by
  constructor
  · intro a rv pf ops
    exact ⟨runOps_rate ops _, runOps_gain ops _⟩
  · exact ⟨by decide, by decide, by decide, by decide⟩
